import Mathlib

/-!
Shallow embedding of the MySQL external-authentication module:
source files src/salt/utils/mysql.py (option resolution and connection
opening) and src/salt/auth/mysql.py (the auth entry point).

Modelling conventions:
- Python dicts become association lists over String keys with
  heterogeneous values (inductive Val).  Lookup returns the first
  matching entry; real Python dicts have no duplicate keys, and the
  update operation below never introduces one.
- The ambient module-level global __opts__ that get_mysql_options reads
  is an explicit parameter named ambient; the unused
  options parameter is kept, unused, as in the source.
- The database driver is modelled by a DbEnv record saying whether the
  connection attempt raises OperationalError, whether cursor.execute
  raises a driver-level error, and what cursor.rowcount is afterwards.
- Python exceptions become the PyErr error type threaded through Except;
  an uncaught exception in the source is an Except.error result.
- Observable side effects (log lines, connection open/close, query
  execution) are recorded in an Event trace returned alongside the
  result.  The source never calls conn.close, so nothing emits
  Event.closeConn; the constructor exists to state claims about it.
-/

namespace SaltMySQL

/-- A configuration value: string, integer, or nested mapping
(covering the values appearing in the source: hostname etc. strings,
port 3306, and the ssl sub-mapping). -/
inductive Val where
  | str (s : String)
  | num (n : Int)
  | dict (d : List (String × Val))

/-- A Python dict with string keys, as an association list. -/
abbrev Dict := List (String × Val)

/-- Python d[k] lookup / d.get(k): first entry with the given key. -/
def dictGet (d : Dict) (k : String) : Option Val :=
  match d with
  | [] => none
  | p :: rest => if p.1 = k then some p.2 else dictGet rest k

/-- Python membership test: k in d. -/
def dictMem (d : Dict) (k : String) : Bool :=
  (dictGet d k).isSome

/-- Python d[k] = v: overwrite the entry if the key is present,
otherwise append a new entry. -/
def dictSet (d : Dict) (k : String) (v : Val) : Dict :=
  if dictMem d k then d.map (fun p => if p.1 = k then (k, v) else p)
  else d ++ [(k, v)]

/-- Fold a list of entries into an accumulator dict, writing each key
with a value computed from the entry.  the Python dict.update method and the
field-resolution loop of get_mysql_options are both instances. -/
def dictFoldSet (g : String × Val → Val) (l : Dict) (acc : Dict) : Dict :=
  l.foldl (fun a p => dictSet a p.1 (g p)) acc

/-- Python defaults.update(custom): every entry of the second dict is
written into the first. -/
def dictUpdate (d c : Dict) : Dict :=
  dictFoldSet (fun p => p.2) c d

/-- The keys of a dict, in order. -/
def dictKeys (d : Dict) : List String :=
  d.map Prod.fst

/-- The built-in connection defaults of _get_mysql_defaults in
src/salt/utils/mysql.py. -/
def builtinDefaults : Dict :=
  [("hostname", Val.str "localhost"),
   ("username", Val.str "salt"),
   ("password", Val.str "salt"),
   ("database", Val.str "salt"),
   ("port", Val.num 3306),
   ("unix_socket", Val.str "/tmp/mysql.sock"),
   ("charset", Val.str "utf8"),
   ("ssl", Val.dict [])]

/-- _get_mysql_defaults(custom_defaults=None): the built-in defaults,
updated with the custom defaults when given. -/
def getMysqlDefaults (custom_defaults : Option Dict) : Dict :=
  match custom_defaults with
  | none => builtinDefaults
  | some c => dictUpdate builtinDefaults c

/-- Python exceptions that the embedded code can raise or propagate. -/
inductive PyErr where
  | typeError
  | keyError (k : String)
  | attributeError
  | operationalError
  deriving Repr, BEq, DecidableEq

/-- The per-field choice of the resolution loop in get_mysql_options:
the value from the runtime subsection when the key is present there, otherwise
the default. -/
def resolveVal (sub : Dict) (p : String × Val) : Val :=
  match dictGet sub p.1 with
  | some v => v
  | none => p.2

/-- get_mysql_options(options_key=None, options=None, custom_defaults=None)
from src/salt/utils/mysql.py.  The body reads the module-level global
__opts__ (the ambient parameter here), not the options parameter:
_opts = __opts__.get(options_key, {}); then for each attr of the merged
defaults it takes _opts[attr] when present, else the default, and
returns the accumulated dict.  The source has a single return statement
returning that dict, so the Option in the result is some on every
non-raising path.  When the configured subsection is present but not a
mapping, the membership test attr not in _opts raises; this is modelled
as PyErr.typeError. -/
def get_mysql_options (options_key : String) (options : Option Dict)
    (custom_defaults : Option Dict) (ambient : Dict) :
    Except PyErr (Option Dict) :=
  let defaults := getMysqlDefaults custom_defaults
  match dictGet ambient options_key with
  | none => Except.ok (some (dictFoldSet (resolveVal []) defaults []))
  | some (Val.dict sub) => Except.ok (some (dictFoldSet (resolveVal sub) defaults []))
  | some _ => Except.error PyErr.typeError

/-- Behaviour of the external MySQL driver and database for one call:
whether MySQLdb.connect raises OperationalError, whether cursor.execute
raises a driver-level error, and the cursor.rowcount the query leaves
behind when it does execute. -/
structure DbEnv where
  connectFails : Bool
  executeFails : Bool
  rowcount : Int
  deriving Repr, BEq, DecidableEq

/-- Observable side effects of the embedded code, in order of
occurrence.  The source never calls conn.close, so no definition below
emits Event.closeConn; the constructor exists so that claims about
releasing the connection can be stated. -/
inductive Event where
  | logDebugNoOptions
  | logErrorConnect
  | logErrorConnFailed
  | openConn
  | execQuery (q : String)
  | closeConn
  deriving Repr, BEq, DecidableEq

/-- The option fields that connect passes to MySQLdb.connect, in the
positional order of the call (charset is not passed). -/
def connKeys : List String :=
  ["hostname", "username", "password", "database", "port", "unix_socket", "ssl"]

/-- The first of the given keys missing from the dict, if any: the
argument expressions options[...] of the MySQLdb.connect call are
evaluated left to right and the first missing key raises KeyError. -/
def firstMissing (o : Dict) : List String → Option String
  | [] => none
  | k :: rest => if dictMem o k then firstMissing o rest else some k

/-- connect(options=None) from src/salt/utils/mysql.py.  Returns the
Python value False (here: Option.none inside Except.ok) when options is
None or when MySQLdb.connect raises OperationalError (which is caught
and logged); a KeyError from the argument lookups is not an
OperationalError and propagates.  A successful call returns the
connection (modelled as Unit). -/
def connect (options : Option Dict) (env : DbEnv) :
    Except PyErr (Option Unit) × List Event :=
  match options with
  | none => (Except.ok none, [Event.logDebugNoOptions])
  | some o =>
    match firstMissing o connKeys with
    | some k => (Except.error (PyErr.keyError k), [])
    | none =>
      if env.connectFails then (Except.ok none, [Event.logErrorConnect])
      else (Except.ok (some ()), [Event.openConn])

/-- One left-to-right pass of Python str.format restricted to the
positional fields \x7b0\x7d and \x7b1\x7d appearing in the
templates: each occurrence of the first field in the template is
replaced by a, each occurrence of the second by b, and replacement text
is never rescanned. -/
def fmt2Aux (a b : List Char) : List Char → List Char
  | [] => []
  | c :: rest =>
    if c = '\x7b' then
      match rest with
      | i :: close :: rest2 =>
        if i = '0' ∧ close = '\x7d' then a ++ fmt2Aux a b rest2
        else if i = '1' ∧ close = '\x7d' then b ++ fmt2Aux a b rest2
        else c :: fmt2Aux a b (i :: close :: rest2)
      | [] => c :: fmt2Aux a b []
      | [i] => c :: fmt2Aux a b [i]
    else c :: fmt2Aux a b rest
termination_by l => l.length

/-- t.format(a, b) for a template t whose substitution sites are the
positional fields \x7b0\x7d and \x7b1\x7d. -/
def strFormat2 (t a b : String) : String :=
  String.mk (fmt2Aux a.data b.data t.data)

/-- The default auth_sql template of src/salt/auth/mysql.py. -/
def defaultAuthSql : String :=
  "SELECT username FROM users WHERE username = \"\x7b0\x7d\" AND password = SHA2(\"\x7b1\x7d\", 256)"

/-- The auth_defaults dict that auth passes as custom defaults. -/
def authDefaults : Dict :=
  [("auth_sql", Val.str defaultAuthSql)]

/-- auth(username, password) from src/salt/auth/mysql.py.
auth_opts is the __opts__ global of the auth module, which the source passes
as the (unused) options argument of get_mysql_options; utils_opts is
the ambient __opts__ global of the utils module, the one actually read.

Control flow of the source: resolve options (a raised error propagates);
return False if the result is None; connect, and on the Python value
False log the connection-failed line and return False (the source line
`if conn is False` is missing its colon — a trivial syntax slip — and is
embedded by its evident intent); build the query with
indexing auth_sql and calling format on it (a missing key raises
KeyError, a non-string value raises AttributeError on .format); run
cursor.execute with no surrounding try, so a driver-level error
propagates; finally return whether cursor.rowcount == 1.  No path
closes the connection. -/
def auth (username password : String) (auth_opts utils_opts : Dict)
    (env : DbEnv) : Except PyErr Bool × List Event :=
  match get_mysql_options "mysql_auth" (some auth_opts) (some authDefaults) utils_opts with
  | Except.error e => (Except.error e, [])
  | Except.ok none => (Except.ok false, [])
  | Except.ok (some opts) =>
    match connect (some opts) env with
    | (Except.error e, evs) => (Except.error e, evs)
    | (Except.ok none, evs) => (Except.ok false, evs ++ [Event.logErrorConnFailed])
    | (Except.ok (some _), evs) =>
      match dictGet opts "auth_sql" with
      | none => (Except.error (PyErr.keyError "auth_sql"), evs)
      | some (Val.str tmpl) =>
        let q := strFormat2 tmpl username password
        if env.executeFails then (Except.error PyErr.operationalError, evs ++ [Event.execQuery q])
        else if env.rowcount = 1 then (Except.ok true, evs ++ [Event.execQuery q])
        else (Except.ok false, evs ++ [Event.execQuery q])
      | some _ => (Except.error PyErr.attributeError, evs)

/-! ### Dictionary lemmas -/

theorem dictKeys_nil : dictKeys [] = [] := rfl

theorem dictKeys_cons (p : String × Val) (l : Dict) :
    dictKeys (p :: l) = p.1 :: dictKeys l := rfl

theorem dictGet_eq_none_iff (l : Dict) (k : String) :
    dictGet l k = none ↔ k ∉ dictKeys l := by
  induction l with
  | nil => simp [dictGet, dictKeys]
  | cons p rest ih =>
    rw [dictKeys_cons]
    by_cases h : p.1 = k
    · subst h
      simp [dictGet]
    · have hred : dictGet (p :: rest) k = dictGet rest k := by
        simp [dictGet, h]
      rw [hred, ih]
      constructor
      · intro hn hc
        rcases List.mem_cons.mp hc with hc2 | hc2
        · exact h hc2.symm
        · exact hn hc2
      · intro hn hc
        exact hn (List.mem_cons.mpr (Or.inr hc))

theorem mem_of_dictGet_some (l : Dict) (k : String) (v : Val)
    (h : dictGet l k = some v) : (k, v) ∈ l := by
  induction l with
  | nil => simp [dictGet] at h
  | cons p rest ih =>
    by_cases hp : p.1 = k
    · have hv : p.2 = v := by
        simpa [dictGet, hp] using h
      exact List.mem_cons.mpr (Or.inl (by rw [← hp, ← hv]))
    · have h2 : dictGet rest k = some v := by
        simpa [dictGet, hp] using h
      exact List.mem_cons_of_mem _ (ih h2)

theorem dictGet_append_some (d e : Dict) (k : String) (v : Val)
    (h : dictGet d k = some v) : dictGet (d ++ e) k = some v := by
  induction d with
  | nil => simp [dictGet] at h
  | cons p rest ih =>
    by_cases hp : p.1 = k <;> simp_all [dictGet]

theorem dictGet_append_none (d e : Dict) (k : String)
    (h : dictGet d k = none) : dictGet (d ++ e) k = dictGet e k := by
  induction d with
  | nil => simp
  | cons p rest ih =>
    by_cases hp : p.1 = k <;> simp_all [dictGet]

theorem dictGet_map_set_self (d : Dict) (k : String) (v : Val)
    (hm : dictMem d k = true) :
    dictGet (d.map (fun p => if p.1 = k then (k, v) else p)) k = some v := by
  induction d with
  | nil => simp [dictMem, dictGet] at hm
  | cons p rest ih =>
    by_cases hp : p.1 = k
    · simp [dictGet, hp]
    · have hm2 : dictMem rest k = true := by
        simpa [dictMem, dictGet, hp] using hm
      simpa [dictGet, hp] using ih hm2

theorem dictGet_map_set_ne (d : Dict) (k k2 : String) (v : Val)
    (hk : k2 ≠ k) :
    dictGet (d.map (fun p => if p.1 = k then (k, v) else p)) k2 = dictGet d k2 := by
  induction d with
  | nil => rfl
  | cons p rest ih =>
    by_cases hp : p.1 = k
    · have hne : ¬(k = k2) := fun hc => hk hc.symm
      have hne2 : ¬(p.1 = k2) := by
        rw [hp]
        exact hne
      simp [dictGet, hp, hne, hne2, ih]
    · by_cases hp2 : p.1 = k2
      · simp only [List.map_cons]
        rw [if_neg hp]
        simp [dictGet, hp2]
      · simp only [List.map_cons]
        rw [if_neg hp]
        simp [dictGet, hp2, ih]

theorem dictGet_dictSet (d : Dict) (k k2 : String) (v : Val) :
    dictGet (dictSet d k v) k2 = if k2 = k then some v else dictGet d k2 := by
  unfold dictSet
  by_cases hm : dictMem d k = true
  · rw [if_pos hm]
    by_cases hk : k2 = k
    · subst hk
      rw [if_pos rfl]
      exact dictGet_map_set_self d k2 v hm
    · rw [if_neg hk]
      exact dictGet_map_set_ne d k k2 v hk
  · rw [if_neg hm]
    have hn : dictGet d k = none := by
      cases hd : dictGet d k with
      | none => rfl
      | some w => simp [dictMem, hd] at hm
    by_cases hk : k2 = k
    · subst hk
      rw [if_pos rfl, dictGet_append_none d _ k2 hn]
      simp [dictGet]
    · rw [if_neg hk]
      cases hd : dictGet d k2 with
      | some w => exact dictGet_append_some d _ k2 w hd
      | none =>
        rw [dictGet_append_none d _ k2 hd]
        have hne : ¬(k = k2) := fun hc => hk hc.symm
        simp [dictGet, hne]

theorem dictFoldSet_nil (g : String × Val → Val) (acc : Dict) :
    dictFoldSet g [] acc = acc := rfl

theorem dictFoldSet_cons (g : String × Val → Val) (p : String × Val)
    (l : Dict) (acc : Dict) :
    dictFoldSet g (p :: l) acc = dictFoldSet g l (dictSet acc p.1 (g p)) := rfl

theorem dictGet_dictFoldSet_not_mem (g : String × Val → Val) (l : Dict) :
    ∀ acc k, k ∉ dictKeys l →
      dictGet (dictFoldSet g l acc) k = dictGet acc k := by
  induction l with
  | nil => intro acc k _; rfl
  | cons p rest ih =>
    intro acc k h
    rw [dictKeys_cons] at h
    have h1 : ¬(k = p.1) := fun hc => h (List.mem_cons.mpr (Or.inl hc))
    have h2 : k ∉ dictKeys rest := fun hc => h (List.mem_cons.mpr (Or.inr hc))
    rw [dictFoldSet_cons, ih _ _ h2, dictGet_dictSet, if_neg h1]

theorem dictGet_dictFoldSet_mem (g : String × Val → Val) (l : Dict) :
    ∀ acc, (dictKeys l).Nodup → ∀ p ∈ l,
      dictGet (dictFoldSet g l acc) p.1 = some (g p) := by
  induction l with
  | nil =>
    intro acc _ p hp
    simp at hp
  | cons q rest ih =>
    intro acc hnd p hp
    rw [dictKeys_cons, List.nodup_cons] at hnd
    rcases List.mem_cons.mp hp with rfl | hmem
    · rw [dictFoldSet_cons,
        dictGet_dictFoldSet_not_mem g rest _ p.1 hnd.1,
        dictGet_dictSet, if_pos rfl]
    · rw [dictFoldSet_cons]
      exact ih _ hnd.2 p hmem

theorem dictGet_dictFoldSet_eq_none (g : String × Val → Val) (l : Dict) :
    ∀ acc k, (dictGet (dictFoldSet g l acc) k = none ↔
      dictGet acc k = none ∧ k ∉ dictKeys l) := by
  induction l with
  | nil =>
    intro acc k
    simp [dictFoldSet_nil, dictKeys_nil]
  | cons p rest ih =>
    intro acc k
    rw [dictFoldSet_cons, ih, dictGet_dictSet, dictKeys_cons]
    by_cases hk : k = p.1
    · subst hk
      simp
    · simp [hk]

theorem dictKeys_map_set (d : Dict) (k : String) (v : Val) :
    dictKeys (d.map (fun p => if p.1 = k then (k, v) else p)) = dictKeys d := by
  induction d with
  | nil => rfl
  | cons p rest ih =>
    simp only [List.map_cons, dictKeys_cons]
    by_cases hp : p.1 = k
    · rw [if_pos hp, ih, hp]
    · rw [if_neg hp, ih]

theorem dictKeys_dictSet_nodup (d : Dict) (k : String) (v : Val)
    (h : (dictKeys d).Nodup) : (dictKeys (dictSet d k v)).Nodup := by
  unfold dictSet
  by_cases hm : dictMem d k = true
  · rw [if_pos hm, dictKeys_map_set]
    exact h
  · rw [if_neg hm]
    have hk : k ∉ dictKeys d := by
      rw [← dictGet_eq_none_iff]
      cases hd : dictGet d k with
      | none => rfl
      | some w => simp [dictMem, hd] at hm
    have hkeys : dictKeys (d ++ [(k, v)]) = dictKeys d ++ [k] := by
      simp [dictKeys]
    rw [hkeys, List.nodup_append]
    refine ⟨h, List.nodup_singleton k, ?_⟩
    intro a ha hb
    rw [List.mem_singleton] at hb
    subst hb
    exact hk ha

theorem dictKeys_dictFoldSet_nodup (g : String × Val → Val) (l : Dict) :
    ∀ acc, (dictKeys acc).Nodup → (dictKeys (dictFoldSet g l acc)).Nodup := by
  induction l with
  | nil =>
    intro acc h
    exact h
  | cons p rest ih =>
    intro acc h
    rw [dictFoldSet_cons]
    exact ih _ (dictKeys_dictSet_nodup _ _ _ h)

theorem builtin_keys_nodup : (dictKeys builtinDefaults).Nodup := by decide

theorem defaults_keys_nodup (cd : Option Dict) :
    (dictKeys (getMysqlDefaults cd)).Nodup := by
  cases cd with
  | none => exact builtin_keys_nodup
  | some c => exact dictKeys_dictFoldSet_nodup _ c builtinDefaults builtin_keys_nodup

theorem dictGet_dictUpdate_some (d c : Dict) (k : String) (v : Val)
    (hnd : (dictKeys c).Nodup) (h : dictGet c k = some v) :
    dictGet (dictUpdate d c) k = some v := by
  have hm := mem_of_dictGet_some c k v h
  have h2 := dictGet_dictFoldSet_mem (fun p => p.2) c d hnd (k, v) hm
  simpa using h2

theorem dictGet_dictUpdate_none (d c : Dict) (k : String)
    (h : dictGet c k = none) :
    dictGet (dictUpdate d c) k = dictGet d k :=
  dictGet_dictFoldSet_not_mem _ c d k ((dictGet_eq_none_iff c k).mp h)

/-! ### Resolver characterization -/

theorem get_mysql_options_no_sub (key : String) (options cd : Option Dict)
    (amb : Dict) (h : dictGet amb key = none) :
    get_mysql_options key options cd amb =
      Except.ok (some (dictFoldSet (resolveVal []) (getMysqlDefaults cd) [])) := by
  simp [get_mysql_options, h]

theorem get_mysql_options_dict_sub (key : String) (options cd : Option Dict)
    (amb sub : Dict) (h : dictGet amb key = some (Val.dict sub)) :
    get_mysql_options key options cd amb =
      Except.ok (some (dictFoldSet (resolveVal sub) (getMysqlDefaults cd) [])) := by
  simp [get_mysql_options, h]

theorem get_mysql_options_ok_some (key : String) (options cd : Option Dict)
    (amb d : Dict)
    (hres : get_mysql_options key options cd amb = Except.ok (some d)) :
    ∃ sub : Dict, d = dictFoldSet (resolveVal sub) (getMysqlDefaults cd) [] := by
  cases hval : dictGet amb key with
  | none =>
    rw [get_mysql_options_no_sub key options cd amb hval] at hres
    simp at hres
    exact ⟨[], hres.symm⟩
  | some v =>
    cases v with
    | dict sub =>
      rw [get_mysql_options_dict_sub key options cd amb sub hval] at hres
      simp at hres
      exact ⟨sub, hres.symm⟩
    | str s => simp [get_mysql_options, hval] at hres
    | num n => simp [get_mysql_options, hval] at hres

/-- Lookup in a resolved record is none exactly when the key is not a
recognized (default) field. -/
theorem resolved_none_iff (cd : Option Dict) (sub d : Dict)
    (hd : d = dictFoldSet (resolveVal sub) (getMysqlDefaults cd) [])
    (k : String) :
    (dictGet d k = none ↔ dictGet (getMysqlDefaults cd) k = none) := by
  subst hd
  rw [dictGet_dictFoldSet_eq_none, dictGet_eq_none_iff (getMysqlDefaults cd)]
  simp [dictGet]

theorem defaults_get_ne_none (cd : Option Dict) (k : String)
    (hk : dictGet builtinDefaults k ≠ none) :
    dictGet (getMysqlDefaults cd) k ≠ none := by
  cases cd with
  | none => exact hk
  | some c =>
    intro hc
    have h2 := (dictGet_dictFoldSet_eq_none (fun p => p.2) c builtinDefaults k).mp hc
    exact hk h2.1

theorem connKeys_builtin :
    ∀ k ∈ connKeys, (dictGet builtinDefaults k).isSome = true := by
  decide

theorem firstMissing_none (o : Dict) (ks : List String)
    (h : ∀ k ∈ ks, dictMem o k = true) : firstMissing o ks = none := by
  induction ks with
  | nil => rfl
  | cons k rest ih =>
    simp only [firstMissing]
    rw [if_pos (h k (List.mem_cons_self k rest))]
    exact ih fun k2 hk2 => h k2 (List.mem_cons_of_mem k hk2)

/-- A resolved record always carries every key that MySQLdb.connect is
given, so the embedded connect reaches the driver call. -/
theorem connect_resolved (cd : Option Dict) (sub d : Dict)
    (hd : d = dictFoldSet (resolveVal sub) (getMysqlDefaults cd) [])
    (env : DbEnv) :
    connect (some d) env =
      if env.connectFails then (Except.ok none, [Event.logErrorConnect])
      else (Except.ok (some ()), [Event.openConn]) := by
  have hkeys : ∀ k ∈ connKeys, dictMem d k = true := by
    intro k hk
    have hb : dictGet builtinDefaults k ≠ none := by
      have h2 := connKeys_builtin k hk
      rw [Option.isSome_iff_ne_none] at h2
      exact h2
    have h3 : dictGet d k ≠ none := fun hc =>
      defaults_get_ne_none cd k hb ((resolved_none_iff cd sub d hd k).mp hc)
    rw [dictMem, Option.isSome_iff_ne_none]
    exact h3
  simp [connect, firstMissing_none d connKeys hkeys]

/-! ### Formatting lemmas -/

/-- A string with no brace characters: text that str.format copies
verbatim, containing no substitution site. -/
abbrev braceFree (s : String) : Prop :=
  ∀ c ∈ s.data, c ≠ '\x7b' ∧ c ≠ '\x7d'

theorem fmt2Aux_cons_ne (a b : List Char) (c : Char) (rest : List Char)
    (hc : c ≠ '\x7b') :
    fmt2Aux a b (c :: rest) = c :: fmt2Aux a b rest := by
  rw [fmt2Aux.eq_def]
  simp [hc]

theorem fmt2Aux_site0 (a b : List Char) (rest : List Char) :
    fmt2Aux a b ('\x7b' :: '0' :: '\x7d' :: rest) = a ++ fmt2Aux a b rest := by
  simp [fmt2Aux]

theorem fmt2Aux_site1 (a b : List Char) (rest : List Char) :
    fmt2Aux a b ('\x7b' :: '1' :: '\x7d' :: rest) = b ++ fmt2Aux a b rest := by
  simp [fmt2Aux]

theorem fmt2Aux_passthrough (a b : List Char) (s : List Char)
    (rest : List Char) (hs : ∀ c ∈ s, c ≠ '\x7b') :
    fmt2Aux a b (s ++ rest) = s ++ fmt2Aux a b rest := by
  induction s with
  | nil => rfl
  | cons c cs ih =>
    rw [List.cons_append,
      fmt2Aux_cons_ne a b c _ (hs c (List.mem_cons_self c cs)),
      ih fun c2 hc2 => hs c2 (List.mem_cons_of_mem c hc2)]
    rfl

/-- Formatting a template made of two substitution sites separated by
brace-free text substitutes the first argument at the first site and the
second argument at the second site. -/
theorem strFormat2_two_sites (u p pre mid post : String)
    (hpre : braceFree pre) (hmid : braceFree mid) (hpost : braceFree post) :
    strFormat2 (pre ++ "\x7b0\x7d" ++ mid ++ "\x7b1\x7d" ++ post) u p
      = pre ++ u ++ mid ++ p ++ post := by
  have hpre2 : ∀ c ∈ pre.data, c ≠ '\x7b' := fun c hc => (hpre c hc).1
  have hmid2 : ∀ c ∈ mid.data, c ≠ '\x7b' := fun c hc => (hmid c hc).1
  have hpost2 : ∀ c ∈ post.data, c ≠ '\x7b' := fun c hc => (hpost c hc).1
  have hdata : (pre ++ "\x7b0\x7d" ++ mid ++ "\x7b1\x7d" ++ post).data
      = pre.data ++ ('\x7b' :: '0' :: '\x7d' ::
          (mid.data ++ ('\x7b' :: '1' :: '\x7d' :: post.data))) := by
    simp only [String.data_append, List.append_assoc]
    rfl
  have hpost3 : fmt2Aux u.data p.data post.data = post.data := by
    have h4 := fmt2Aux_passthrough u.data p.data post.data [] hpost2
    have h5 : fmt2Aux u.data p.data [] = [] := by
      rw [fmt2Aux.eq_def]
    rw [h5, List.append_nil] at h4
    exact h4
  unfold strFormat2
  rw [hdata, fmt2Aux_passthrough _ _ _ _ hpre2, fmt2Aux_site0,
    fmt2Aux_passthrough _ _ _ _ hmid2, fmt2Aux_site1, hpost3]
  have hlist : pre.data ++ (u.data ++ (mid.data ++ (p.data ++ post.data)))
      = (pre ++ u ++ mid ++ p ++ post).data := by
    simp only [String.data_append, List.append_assoc]
  rw [hlist]

/-! ### Further helpers -/

theorem dictFoldSet_fresh (g : String × Val → Val) (l : Dict) :
    ∀ acc, (dictKeys l).Nodup → (∀ p ∈ l, dictMem acc p.1 = false) →
      dictFoldSet g l acc = acc ++ l.map (fun p => (p.1, g p)) := by
  induction l with
  | nil =>
    intro acc _ _
    simp [dictFoldSet_nil]
  | cons p rest ih =>
    intro acc hnd hfresh
    rw [dictKeys_cons, List.nodup_cons] at hnd
    have hset : dictSet acc p.1 (g p) = acc ++ [(p.1, g p)] := by
      unfold dictSet
      rw [hfresh p (List.mem_cons_self p rest)]
      simp
    have hfresh2 : ∀ q ∈ rest, dictMem (acc ++ [(p.1, g p)]) q.1 = false := by
      intro q hq
      have hq1 : q.1 ≠ p.1 := by
        intro hc
        exact hnd.1 (hc ▸ (List.mem_map.mpr ⟨q, hq, rfl⟩))
      have hacc : dictGet acc q.1 = none := by
        have h3 := hfresh q (List.mem_cons_of_mem p hq)
        cases hg : dictGet acc q.1 with
        | none => rfl
        | some w => simp [dictMem, hg] at h3
      rw [dictMem, dictGet_append_none acc _ q.1 hacc]
      have hne : ¬(p.1 = q.1) := fun hc => hq1 hc.symm
      simp [dictGet, hne]
    rw [dictFoldSet_cons, hset, ih _ hnd.2 hfresh2]
    simp

theorem resolved_empty_sub (cd : Option Dict) :
    dictFoldSet (resolveVal []) (getMysqlDefaults cd) [] = getMysqlDefaults cd := by
  rw [dictFoldSet_fresh _ _ [] (defaults_keys_nodup cd) (fun p _ => rfl)]
  simp [resolveVal, dictGet]

theorem resolved_builtin_isSome (cd : Option Dict) (sub : Dict) (k : String)
    (hk : k ∈ dictKeys builtinDefaults) :
    (dictGet (dictFoldSet (resolveVal sub) (getMysqlDefaults cd) []) k).isSome
      = true := by
  rw [Option.isSome_iff_ne_none]
  intro hc
  have h2 := (resolved_none_iff cd sub _ rfl k).mp hc
  exact defaults_get_ne_none cd k
    (fun hb => ((dictGet_eq_none_iff _ _).mp hb) hk) h2

/-- The trace of connect never contains a connection-release event: the
source function opens the connection and hands it back unclosed. -/
theorem connect_no_close (o : Option Dict) (env : DbEnv) :
    (connect o env).2.count Event.closeConn = 0 := by
  cases o with
  | none => rfl
  | some d =>
    cases hf : firstMissing d connKeys with
    | some k => simp [connect, hf]
    | none => cases hb : env.connectFails <;> simp [connect, hf, hb] <;> rfl

/-- The three possible outcomes of connect on a present options dict:
a KeyError on a missing field, a logged operational failure, or an open
connection. -/
theorem connect_split (d : Dict) (env : DbEnv) :
    (∃ k, connect (some d) env = (Except.error (PyErr.keyError k), [])) ∨
    connect (some d) env = (Except.ok none, [Event.logErrorConnect]) ∨
    connect (some d) env = (Except.ok (some ()), [Event.openConn]) := by
  cases hf : firstMissing d connKeys with
  | some k => exact Or.inl ⟨k, by simp [connect, hf]⟩
  | none =>
    cases hb : env.connectFails
    · exact Or.inr (Or.inr (by simp [connect, hf, hb]))
    · exact Or.inr (Or.inl (by simp [connect, hf, hb]))

/-- Unfolding of auth on the paths where options resolve and the
connection attempt reaches the driver and succeeds. -/
theorem auth_exec_eq (u p : String) (ao uo : Dict) (env : DbEnv) (d : Dict)
    (tmpl : String)
    (hres : get_mysql_options "mysql_auth" (some ao) (some authDefaults) uo
      = Except.ok (some d))
    (hconn : env.connectFails = false)
    (htmpl : dictGet d "auth_sql" = some (Val.str tmpl)) :
    auth u p ao uo env =
      ((if env.executeFails then Except.error PyErr.operationalError
        else if env.rowcount = 1 then Except.ok true else Except.ok false),
       [Event.openConn, Event.execQuery (strFormat2 tmpl u p)]) := by
  obtain ⟨sub, hd⟩ := get_mysql_options_ok_some _ _ _ _ _ hres
  have hc := connect_resolved (some authDefaults) sub d hd env
  rw [hconn] at hc
  simp only [Bool.false_eq_true, if_false] at hc
  simp only [auth, hres, hc, htmpl]
  cases he : env.executeFails with
  | true => simp
  | false =>
    by_cases hr : env.rowcount = 1 <;> simp [hr]

/-! ### Claim theorems -/

/-- C1: for every username and password, when the resolved options are
non-None and the connection and query stages succeed, auth returns true
exactly when executing the auth_sql query leaves cursor.rowcount equal
to 1, and false for every other row count. -/
theorem c1_strict_row_match (u p : String) (ao uo : Dict) (env : DbEnv)
    (d : Dict) (tmpl : String)
    (hres : get_mysql_options "mysql_auth" (some ao) (some authDefaults) uo
      = Except.ok (some d))
    (hconn : env.connectFails = false)
    (hexec : env.executeFails = false)
    (htmpl : dictGet d "auth_sql" = some (Val.str tmpl)) :
    (auth u p ao uo env).1 = Except.ok (decide (env.rowcount = 1)) := by
  rw [auth_exec_eq u p ao uo env d tmpl hres hconn htmpl]
  by_cases hr : env.rowcount = 1 <;> simp [hexec, hr]

/-- C1 witness: default configuration, working driver, one matching
row: auth allows. -/
theorem c1_strict_row_match_witness :
    (auth "diana" "secret" [] [] (DbEnv.mk false false 1)).1
      = Except.ok true := by
  have h := c1_strict_row_match "diana" "secret" [] []
    (DbEnv.mk false false 1)
    (dictFoldSet (resolveVal []) (getMysqlDefaults (some authDefaults)) [])
    defaultAuthSql rfl rfl rfl rfl
  simpa using h

/-- C2: the source does not wrap cursor.execute in error handling, so a
driver-level error at the query stage propagates to the caller as an
exception instead of being caught and turned into a false verdict. -/
theorem c2_query_fault_propagates (u p : String) (ao uo : Dict)
    (env : DbEnv) (d : Dict) (tmpl : String)
    (hres : get_mysql_options "mysql_auth" (some ao) (some authDefaults) uo
      = Except.ok (some d))
    (hconn : env.connectFails = false)
    (hexec : env.executeFails = true)
    (htmpl : dictGet d "auth_sql" = some (Val.str tmpl)) :
    (auth u p ao uo env).1 = Except.error PyErr.operationalError := by
  rw [auth_exec_eq u p ao uo env d tmpl hres hconn htmpl]
  simp [hexec]

/-- C2 witness: default configuration, failing query stage: the
OperationalError escapes auth. -/
theorem c2_query_fault_propagates_witness :
    (auth "diana" "secret" [] [] (DbEnv.mk false true 0)).1
      = Except.error PyErr.operationalError :=
  c2_query_fault_propagates "diana" "secret" [] [] (DbEnv.mk false true 0)
    (dictFoldSet (resolveVal []) (getMysqlDefaults (some authDefaults)) [])
    defaultAuthSql rfl rfl rfl rfl

/-- C3: when opening the connection fails with an operational error,
auth logs the error (both the driver error inside connect and its own
connection-failed line) and returns false; no exception propagates. -/
theorem c3_connect_failure_denies (u p : String) (ao uo : Dict)
    (env : DbEnv) (d : Dict)
    (hres : get_mysql_options "mysql_auth" (some ao) (some authDefaults) uo
      = Except.ok (some d))
    (hconn : env.connectFails = true) :
    (auth u p ao uo env).1 = Except.ok false ∧
      Event.logErrorConnect ∈ (auth u p ao uo env).2 ∧
      Event.logErrorConnFailed ∈ (auth u p ao uo env).2 := by
  obtain ⟨sub, hd⟩ := get_mysql_options_ok_some _ _ _ _ _ hres
  have hc := connect_resolved (some authDefaults) sub d hd env
  rw [hconn] at hc
  simp only [if_true] at hc
  simp [auth, hres, hc]

/-- C3 witness: default configuration with a refused connection: auth
denies and both error log lines appear. -/
theorem c3_connect_failure_denies_witness :
    (auth "diana" "secret" [] [] (DbEnv.mk true false 1)).1
      = Except.ok false ∧
      Event.logErrorConnect ∈ (auth "diana" "secret" [] [] (DbEnv.mk true false 1)).2 ∧
      Event.logErrorConnFailed ∈ (auth "diana" "secret" [] [] (DbEnv.mk true false 1)).2 :=
  c3_connect_failure_denies "diana" "secret" [] [] (DbEnv.mk true false 1)
    (dictFoldSet (resolveVal []) (getMysqlDefaults (some authDefaults)) [])
    rfl rfl

/-- C4: per-field precedence of the resolver, for every recognized
field: a value in the runtime subsection wins; otherwise a custom
default wins; otherwise the built-in default stands. -/
theorem c4_precedence (key : String) (options : Option Dict)
    (cd amb sub d : Dict) (k : String)
    (hsub : dictGet amb key = some (Val.dict sub))
    (hres : get_mysql_options key options (some cd) amb = Except.ok (some d))
    (hk : k ∈ dictKeys (getMysqlDefaults (some cd)))
    (hnd : (dictKeys cd).Nodup) :
    (∀ v, dictGet sub k = some v → dictGet d k = some v) ∧
    (dictGet sub k = none →
      ∀ v, dictGet cd k = some v → dictGet d k = some v) ∧
    (dictGet sub k = none → dictGet cd k = none →
      dictGet d k = dictGet builtinDefaults k) := by
  rw [get_mysql_options_dict_sub key options (some cd) amb sub hsub] at hres
  simp only [Except.ok.injEq, Option.some.injEq] at hres
  obtain ⟨v0, hv0⟩ : ∃ v0, dictGet (getMysqlDefaults (some cd)) k = some v0 := by
    cases hg : dictGet (getMysqlDefaults (some cd)) k with
    | none => exact absurd hk ((dictGet_eq_none_iff _ _).mp hg)
    | some w => exact ⟨w, rfl⟩
  have hmem := mem_of_dictGet_some _ _ _ hv0
  have hget : dictGet d k = some (resolveVal sub (k, v0)) := by
    rw [← hres]
    exact dictGet_dictFoldSet_mem (resolveVal sub) _ []
      (defaults_keys_nodup (some cd)) (k, v0) hmem
  refine ⟨?_, ?_, ?_⟩
  · intro v hv
    rw [hget]
    simp [resolveVal, hv]
  · intro hnone v hv
    have h6 : dictGet (getMysqlDefaults (some cd)) k = some v :=
      dictGet_dictUpdate_some builtinDefaults cd k v hnd hv
    rw [hv0] at h6
    rw [hget]
    simp only [Option.some.injEq] at h6
    simp [resolveVal, hnone, h6]
  · intro hnone hcd
    have h7 : dictGet (getMysqlDefaults (some cd)) k = dictGet builtinDefaults k :=
      dictGet_dictUpdate_none builtinDefaults cd k hcd
    rw [hv0] at h7
    rw [hget]
    simp [resolveVal, hnone, h7.symm]

/-- C4 witness: runtime hostname db1 overrides the built-in default. -/
theorem c4_precedence_witness :
    dictGet (dictFoldSet
      (resolveVal [("hostname", Val.str "db1")])
      (getMysqlDefaults (some authDefaults)) []) "hostname"
      = some (Val.str "db1") :=
  (c4_precedence "mysql_auth" none authDefaults
      [("mysql_auth", Val.dict [("hostname", Val.str "db1")])]
      [("hostname", Val.str "db1")]
      (dictFoldSet (resolveVal [("hostname", Val.str "db1")])
        (getMysqlDefaults (some authDefaults)) [])
      "hostname" rfl rfl (by decide) (by decide)).1
    (Val.str "db1") rfl

/-- C5: the resolver succeeds and populates every built-in field, and
with no runtime subsection it returns exactly the built-in defaults
merged with the custom defaults. -/
theorem c5_complete_record (key : String) (options : Option Dict)
    (cd amb : Dict)
    (hwf : dictGet amb key = none ∨
      ∃ sub, dictGet amb key = some (Val.dict sub)) :
    (∃ d, get_mysql_options key options (some cd) amb = Except.ok (some d) ∧
        ∀ k ∈ dictKeys builtinDefaults, (dictGet d k).isSome = true) ∧
      (dictGet amb key = none →
        get_mysql_options key options (some cd) amb =
          Except.ok (some (getMysqlDefaults (some cd)))) := by
  constructor
  · rcases hwf with h | ⟨sub, h⟩
    · exact ⟨_, get_mysql_options_no_sub key options (some cd) amb h,
        fun k hk => resolved_builtin_isSome (some cd) [] k hk⟩
    · exact ⟨_, get_mysql_options_dict_sub key options (some cd) amb sub h,
        fun k hk => resolved_builtin_isSome (some cd) sub k hk⟩
  · intro h
    rw [get_mysql_options_no_sub key options (some cd) amb h,
      resolved_empty_sub (some cd)]

/-- C5 witness: empty runtime configuration: the result is exactly the
merged defaults. -/
theorem c5_complete_record_witness :
    get_mysql_options "mysql_auth" none (some authDefaults) [] =
      Except.ok (some (getMysqlDefaults (some authDefaults))) :=
  (c5_complete_record "mysql_auth" none authDefaults [] (Or.inl rfl)).2 rfl

/-- C6: a key of the runtime subsection that is neither a built-in
default field nor a custom default field does not appear in the
resolved record. -/
theorem c6_unrecognized_dropped (key : String) (options : Option Dict)
    (cd amb sub d : Dict) (k : String)
    (hsub : dictGet amb key = some (Val.dict sub))
    (hres : get_mysql_options key options (some cd) amb = Except.ok (some d))
    (hk : k ∈ dictKeys sub)
    (hbuiltin : k ∉ dictKeys builtinDefaults)
    (hcustom : k ∉ dictKeys cd) :
    dictGet d k = none := by
  rw [get_mysql_options_dict_sub key options (some cd) amb sub hsub] at hres
  simp only [Except.ok.injEq, Option.some.injEq] at hres
  rw [← hres]
  rw [resolved_none_iff (some cd) sub _ rfl k]
  cases cdg : dictGet cd k with
  | some w =>
    exact absurd (List.mem_map.mpr ⟨(k, w), mem_of_dictGet_some cd k w cdg, rfl⟩)
      hcustom
  | none =>
    show dictGet (dictUpdate builtinDefaults cd) k = none
    rw [dictGet_dictUpdate_none builtinDefaults cd k cdg]
    exact (dictGet_eq_none_iff _ _).mpr hbuiltin

/-- C6 witness: a stray subsection key (server_id) is absent from the
resolved record. -/
theorem c6_unrecognized_dropped_witness :
    dictGet (dictFoldSet
      (resolveVal [("server_id", Val.num 7)])
      (getMysqlDefaults (some authDefaults)) []) "server_id" = none :=
  c6_unrecognized_dropped "mysql_auth" none authDefaults
    [("mysql_auth", Val.dict [("server_id", Val.num 7)])]
    [("server_id", Val.num 7)]
    (dictFoldSet (resolveVal [("server_id", Val.num 7)])
      (getMysqlDefaults (some authDefaults)) [])
    "server_id" rfl rfl (by decide) (by decide) (by decide)

/-- C7: the query given to cursor.execute is the resolved auth_sql
template with the subject username substituted at the first site and
the subject password at the second. -/
theorem c7_query_substitution (u p : String) (ao uo : Dict) (env : DbEnv)
    (d : Dict) (pre mid post : String)
    (hres : get_mysql_options "mysql_auth" (some ao) (some authDefaults) uo
      = Except.ok (some d))
    (hconn : env.connectFails = false)
    (htmpl : dictGet d "auth_sql" =
      some (Val.str (pre ++ "\x7b0\x7d" ++ mid ++ "\x7b1\x7d" ++ post)))
    (hpre : braceFree pre) (hmid : braceFree mid) (hpost : braceFree post) :
    Event.execQuery (pre ++ u ++ mid ++ p ++ post) ∈ (auth u p ao uo env).2 := by
  rw [auth_exec_eq u p ao uo env d _ hres hconn htmpl,
    strFormat2_two_sites u p pre mid post hpre hmid hpost]
  simp

/-- C7 witness: with the default template the executed query embeds the
subject username at the first site and the subject password at the
second. -/
theorem c7_query_substitution_witness :
    Event.execQuery
      ("SELECT username FROM users WHERE username = \"" ++ "diana"
        ++ "\" AND password = SHA2(\"" ++ "secret" ++ "\", 256)")
      ∈ (auth "diana" "secret" [] [] (DbEnv.mk false false 1)).2 :=
  c7_query_substitution "diana" "secret" [] [] (DbEnv.mk false false 1)
    (dictFoldSet (resolveVal []) (getMysqlDefaults (some authDefaults)) [])
    "SELECT username FROM users WHERE username = \""
    "\" AND password = SHA2(\"" "\", 256)"
    rfl rfl rfl (by decide) (by decide) (by decide)

/-- C8: no execution path of auth ever emits a connection-release
event: the source never calls conn.close, so the connection is not
closed before the function returns even when it was opened. -/
theorem c8_connection_never_closed (u p : String) (ao uo : Dict)
    (env : DbEnv) :
    (auth u p ao uo env).2.count Event.closeConn = 0 := by
  cases hg : get_mysql_options "mysql_auth" (some ao) (some authDefaults) uo with
  | error e =>
    simp only [auth, hg]
    rfl
  | ok o =>
    cases o with
    | none =>
      simp only [auth, hg]
      rfl
    | some d =>
      rcases connect_split d env with ⟨k, hc⟩ | hc | hc
      · simp only [auth, hg, hc]
        rfl
      · simp only [auth, hg, hc]
        rfl
      · simp only [auth, hg, hc]
        generalize hq : dictGet d "auth_sql" = aq
        cases aq with
        | none => rfl
        | some v =>
          cases v with
          | str tmpl =>
            generalize hbe : env.executeFails = be
            cases be
            · by_cases hr : env.rowcount = 1 <;> simp only [hr] <;>
                simp <;> rfl
            · rfl
          | num n => rfl
          | dict d2 => rfl

/-- C9: get_mysql_options never produces the Python value None: every
non-raising run returns a dict, so the early-return-false branch of
auth on a None options result can never fire. -/
theorem c9_resolver_never_none (key : String) (options cd : Option Dict)
    (amb : Dict) (o : Option Dict)
    (h : get_mysql_options key options cd amb = Except.ok o) :
    o.isSome = true := by
  cases hval : dictGet amb key with
  | none =>
    rw [get_mysql_options_no_sub key options cd amb hval] at h
    injection h with h2
    rw [← h2]
    rfl
  | some v =>
    cases v with
    | dict sub =>
      rw [get_mysql_options_dict_sub key options cd amb sub hval] at h
      injection h with h2
      rw [← h2]
      rfl
    | str s => simp [get_mysql_options, hval] at h
    | num n => simp [get_mysql_options, hval] at h

/-- C9 witness: the resolver output at the auth call site on an empty
configuration is a present (non-None) record. -/
theorem c9_resolver_never_none_witness :
    (some (dictFoldSet (resolveVal [])
      (getMysqlDefaults (some authDefaults)) []) : Option Dict).isSome
      = true :=
  c9_resolver_never_none "mysql_auth" (some []) (some authDefaults) [] _ rfl

/-- C10: the resolver result does not depend on its options
parameter: the source reads the ambient module-level __opts__ instead,
so two calls differing only in the options argument return identical
records. -/
theorem c10_options_argument_ignored (key : String) (cd : Option Dict)
    (amb : Dict) (o1 o2 : Option Dict) :
    get_mysql_options key o1 cd amb = get_mysql_options key o2 cd amb := rfl

end SaltMySQL
